import Mathlib

/-!
Verification of the spotifylib.js request/response pipeline.

This development shallowly embeds the core of the `spotifylib.js` client
library: the `Util.fetch` request executor with its 401 token-refresh
retry (src/unnamed/part_002), JSON body serialization (`JSON.stringify`
on plain JS values), the `HTTPError` / `ApiError` carriers
(src/unnamed/part_003, src/unnamed/part_013), and the response
classification callbacks of the resource managers
(`TrackManager.get` in src/unnamed/part_011, `UserManager.follow` and
`UserManager.followed` in src/src/managers/User.js,
`Spotify.genres` in src/src/Spotify.js).

JS values are modelled by `JsVal`; JS object property maps by
association lists; promise settlement by the first `resolve`/`reject`
reached (later settle calls on an already-settled promise are no-ops);
the network and the refresh collaborator by oracles indexed by call
count; and the unbounded recursion of `Util.fetch` by a fuel parameter,
with `none` standing for a run that does not settle within the fuel.
-/

namespace Spotifylib

/-! ## JS values (the data handled by `JSON.stringify` and response bodies) -/

/-- Plain JavaScript data values: the payloads that appear as request
bodies and parsed JSON response bodies. -/
inductive JsVal where
  | vnull : JsVal
  | vbool (b : Bool) : JsVal
  | vnum (n : Int) : JsVal
  | vstr (s : String) : JsVal
  | varr (elems : List JsVal) : JsVal
  | vobj (fields : List (String × JsVal)) : JsVal

/-- JavaScript truthiness of a value, as tested by `if (body)` and
`if (res.access_token)` in the source. -/
def truthy : JsVal → Bool
  | .vnull => false
  | .vbool b => b
  | .vnum n => n ≠ 0
  | .vstr s => s ≠ ""
  | .varr _ => true
  | .vobj _ => true

/-- Property access `o.k` on an object: first binding of the key, or
`none` for JavaScript `undefined` (missing property or non-object). -/
def getField (v : JsVal) (k : String) : Option JsVal :=
  match v with
  | .vobj fields => fields.lookup k
  | _ => none

/-! ## JSON.stringify (serialization performed by the request executor) -/

/-- Decimal digit character for a digit value below ten. -/
def digitChar (d : Nat) : Char :=
  match d with
  | 0 => '0' | 1 => '1' | 2 => '2' | 3 => '3' | 4 => '4'
  | 5 => '5' | 6 => '6' | 7 => '7' | 8 => '8' | _ => '9'

/-- Digit characters of a positive number, most significant first;
fuel-structural (fuel `n` suffices since `n / 10` decreases). -/
def natCharsAux : Nat → Nat → List Char
  | 0, _ => []
  | fuel + 1, n => if n = 0 then [] else natCharsAux fuel (n / 10) ++ [digitChar (n % 10)]

/-- Decimal representation of a natural number. -/
def natChars (n : Nat) : List Char :=
  if n = 0 then ['0'] else natCharsAux n n

/-- Decimal representation of an integer (minus sign for negatives),
as produced by `JSON.stringify` for integral numbers. -/
def intChars (n : Int) : List Char :=
  if n < 0 then '-' :: natChars n.natAbs else natChars n.toNat

/-- JSON string escaping: quote and backslash get a backslash prefix
(the escapes `JSON.stringify` needs for round-tripping these values). -/
def escapeChars : List Char → List Char
  | [] => []
  | c :: cs => (if c = '\"' ∨ c = '\\' then ['\\', c] else [c]) ++ escapeChars cs

mutual

/-- Characters of `JSON.stringify(v)`. -/
def printV : JsVal → List Char
  | .vnull => ['n', 'u', 'l', 'l']
  | .vbool true => ['t', 'r', 'u', 'e']
  | .vbool false => ['f', 'a', 'l', 's', 'e']
  | .vnum n => intChars n
  | .vstr s => '\"' :: escapeChars s.data ++ ['\"']
  | .varr l => '[' :: printElems l ++ [']']
  | .vobj l => '\x7b' :: printFields l ++ ['\x7d']

/-- Comma-separated serialization of array elements. -/
def printElems : List JsVal → List Char
  | [] => []
  | [v] => printV v
  | v :: rest => printV v ++ ',' :: printElems rest

/-- Comma-separated serialization of object fields, each as
quoted key, colon, value. -/
def printFields : List (String × JsVal) → List Char
  | [] => []
  | [(k, v)] => '\"' :: escapeChars k.data ++ '\"' :: ':' :: printV v
  | (k, v) :: rest =>
      '\"' :: escapeChars k.data ++ '\"' :: ':' :: printV v ++ ',' :: printFields rest

end

/-- The JSON text `JSON.stringify` produces for a value. -/
def stringify (v : JsVal) : String := String.mk (printV v)

/-! ## JSON parsing (the deserialization an echoing mock server exercises,
and the body parsing that `Util.toJson` is responsible for) -/

/-- Decimal digit test on a character. -/
def isDigitCh (c : Char) : Bool := decide (48 ≤ c.toNat ∧ c.toNat ≤ 57)

/-- Numeric value of a digit character. -/
def charDigit (c : Char) : Nat := c.toNat - 48

/-- Split a leading run of digit characters from the rest. -/
def spanDigits : List Char → List Char × List Char
  | [] => ([], [])
  | c :: cs =>
      if isDigitCh c then
        let p := spanDigits cs
        (c :: p.1, p.2)
      else ([], c :: cs)

/-- Value of a big-endian digit-character list. -/
def digitsToNat : List Char → Nat
  | [] => 0
  | c :: cs => charDigit c * 10 ^ cs.length + digitsToNat cs

/-- Parse a nonempty digit run into a natural number. -/
def parseNatPart (cs : List Char) : Option (Nat × List Char) :=
  match spanDigits cs with
  | ([], _) => none
  | (ds, r) => some (digitsToNat ds, r)

/-- Parse the contents of a JSON string up to its closing quote;
a backslash takes the following character literally. Fuel-structural. -/
def parseStrChars : Nat → List Char → Option (List Char × List Char)
  | 0, _ => none
  | _ + 1, [] => none
  | f + 1, c :: cs =>
      if c = '\"' then some ([], cs)
      else if c = '\\' then
        match cs with
        | [] => none
        | e :: cs2 => (parseStrChars f cs2).map fun p => (e :: p.1, p.2)
      else (parseStrChars f cs).map fun p => (c :: p.1, p.2)

/-- Consume an expected literal tail (such as the `ull` of `null`) and
return the associated value. -/
def takeLit : List Char → JsVal → List Char → Option (JsVal × List Char)
  | [], v, cs => some (v, cs)
  | l :: lit, v, c :: cs => if c = l then takeLit lit v cs else none
  | _ :: _, _, [] => none

mutual

/-- Parse one JSON value; returns the value and the unconsumed rest. -/
def parseV : Nat → List Char → Option (JsVal × List Char)
  | 0, _ => none
  | _ + 1, [] => none
  | f + 1, c :: r =>
      if c = '\"' then
        (parseStrChars f r).map fun p => (.vstr (String.mk p.1), p.2)
      else if c = '[' then
        (parseEs f r).map fun p => (.varr p.1, p.2)
      else if c = '\x7b' then
        (parseFs f r).map fun p => (.vobj p.1, p.2)
      else if c = '-' then
        (parseNatPart r).map fun p => (.vnum (-(p.1 : Int)), p.2)
      else if isDigitCh c then
        (parseNatPart (c :: r)).map fun p => (.vnum (p.1 : Int), p.2)
      else if c = 'n' then takeLit ['u', 'l', 'l'] .vnull r
      else if c = 't' then takeLit ['r', 'u', 'e'] (.vbool true) r
      else if c = 'f' then takeLit ['a', 'l', 's', 'e'] (.vbool false) r
      else none

/-- Parse the element list of an array after the opening bracket,
including the closing bracket. -/
def parseEs : Nat → List Char → Option (List JsVal × List Char)
  | 0, _ => none
  | _ + 1, ']' :: r2 => some ([], r2)
  | f + 1, cs =>
      (parseV f cs).bind fun p =>
        match p.2 with
        | ',' :: r2 => (parseEs f r2).map fun q => (p.1 :: q.1, q.2)
        | ']' :: r2 => some ([p.1], r2)
        | _ => none

/-- Parse the field list of an object after the opening brace,
including the closing brace. -/
def parseFs : Nat → List Char → Option (List (String × JsVal) × List Char)
  | 0, _ => none
  | _ + 1, '\x7d' :: r2 => some ([], r2)
  | f + 1, '\"' :: r =>
      (parseStrChars f r).bind fun kp =>
        match kp.2 with
        | ':' :: r3 =>
            (parseV f r3).bind fun vp =>
              match vp.2 with
              | ',' :: r5 =>
                  (parseFs f r5).map fun q => ((String.mk kp.1, vp.1) :: q.1, q.2)
              | '\x7d' :: r5 => some ([(String.mk kp.1, vp.1)], r5)
              | _ => none
        | _ => none
  | _ + 1, _ => none

end

mutual

/-- Fuel bound sufficient for `parseV` to re-read a printed value. -/
def sizeV : JsVal → Nat
  | .vnull => 1
  | .vbool _ => 1
  | .vnum _ => 1
  | .vstr s => s.data.length + 2
  | .varr l => 1 + sizeEs l
  | .vobj l => 1 + sizeFs l

/-- Fuel bound for `parseEs` on printed elements. -/
def sizeEs : List JsVal → Nat
  | [] => 1
  | v :: rest => 1 + sizeV v + sizeEs rest

/-- Fuel bound for `parseFs` on printed fields. -/
def sizeFs : List (String × JsVal) → Nat
  | [] => 1
  | (k, v) :: rest => 1 + (k.data.length + 2) + sizeV v + sizeFs rest

end

/-- Input is empty or does not start with a digit: the delimiter
condition under which a printed number can be re-read unambiguously. -/
def noDigitStart : List Char → Bool
  | [] => true
  | c :: _ => !isDigitCh c

/-! ## Round-trip lemmas: decimal numbers -/

theorem charDigit_digitChar (d : Nat) (h : d < 10) : charDigit (digitChar d) = d := by
  interval_cases d <;> rfl

theorem isDigitCh_digitChar (d : Nat) (h : d < 10) : isDigitCh (digitChar d) = true := by
  interval_cases d <;> rfl

theorem digitsToNat_append (xs : List Char) (c : Char) :
    digitsToNat (xs ++ [c]) = 10 * digitsToNat xs + charDigit c := by
  induction xs with
  | nil => simp [digitsToNat]
  | cons x xs ih => simp [digitsToNat, ih, List.length_append, pow_succ]; ring

theorem digitsToNat_natCharsAux : ∀ f n, n ≤ f → digitsToNat (natCharsAux f n) = n := by
  intro f
  induction f with
  | zero =>
      intro n hn
      have : n = 0 := by omega
      subst this
      rfl
  | succ f ih =>
      intro n hn
      by_cases h0 : n = 0
      · subst h0; simp [natCharsAux, digitsToNat]
      · have hdiv : n / 10 ≤ f := by
          have := Nat.div_lt_self (Nat.pos_of_ne_zero h0) (by norm_num : 1 < 10)
          omega
        have hmod : n % 10 < 10 := Nat.mod_lt _ (by norm_num)
        simp only [natCharsAux, h0, if_false]
        rw [digitsToNat_append, ih _ hdiv, charDigit_digitChar _ hmod]
        omega

theorem mem_natCharsAux_digit : ∀ f n c, c ∈ natCharsAux f n → isDigitCh c = true := by
  intro f
  induction f with
  | zero => intro n c hc; simp [natCharsAux] at hc
  | succ f ih =>
      intro n c hc
      by_cases h0 : n = 0
      · subst h0; simp [natCharsAux] at hc
      · simp only [natCharsAux, h0, if_false, List.mem_append, List.mem_singleton] at hc
        rcases hc with hc | hc
        · exact ih _ _ hc
        · subst hc
          exact isDigitCh_digitChar _ (Nat.mod_lt _ (by norm_num))

theorem digitsToNat_natChars (n : Nat) : digitsToNat (natChars n) = n := by
  by_cases h0 : n = 0
  · subst h0; rfl
  · simp only [natChars, h0, if_false]
    exact digitsToNat_natCharsAux n n le_rfl

theorem mem_natChars_digit (n : Nat) (c : Char) (hc : c ∈ natChars n) :
    isDigitCh c = true := by
  by_cases h0 : n = 0
  · subst h0
    simp [natChars] at hc
    subst hc
    rfl
  · simp only [natChars, h0, if_false] at hc
    exact mem_natCharsAux_digit n n c hc

theorem natChars_ne_nil (n : Nat) : natChars n ≠ [] := by
  by_cases h0 : n = 0
  · subst h0; simp [natChars]
  · simp only [natChars, h0, if_false]
    cases n with
    | zero => exact absurd rfl h0
    | succ m =>
        simp only [natCharsAux, Nat.succ_ne_zero, if_false]
        simp

theorem spanDigits_append (ds rest : List Char)
    (hds : ∀ c ∈ ds, isDigitCh c = true) (hrest : noDigitStart rest = true) :
    spanDigits (ds ++ rest) = (ds, rest) := by
  induction ds with
  | nil =>
      cases rest with
      | nil => rfl
      | cons c cs =>
          simp only [noDigitStart, Bool.not_eq_true'] at hrest
          simp [spanDigits, hrest]
  | cons d ds ih =>
      have hd : isDigitCh d = true := hds d (List.mem_cons_self d ds)
      have hds2 : ∀ c ∈ ds, isDigitCh c = true := fun c hc => hds c (List.mem_cons_of_mem d hc)
      simp [spanDigits, hd, ih hds2]

theorem parseNatPart_natChars (n : Nat) (rest : List Char)
    (hrest : noDigitStart rest = true) :
    parseNatPart (natChars n ++ rest) = some (n, rest) := by
  have hspan := spanDigits_append (natChars n) rest (mem_natChars_digit n) hrest
  have hne := natChars_ne_nil n
  simp only [parseNatPart, hspan]
  cases h : natChars n with
  | nil => exact absurd h hne
  | cons c cs =>
      rw [← h, digitsToNat_natChars]

/-! ## Round-trip lemmas: strings -/

theorem parseStrChars_escape :
    ∀ (s : List Char) (rest : List Char) (f : Nat), s.length + 1 ≤ f →
      parseStrChars f (escapeChars s ++ '\"' :: rest) = some (s, rest) := by
  intro s
  induction s with
  | nil =>
      intro rest f hf
      cases f with
      | zero => omega
      | succ f => simp [escapeChars, parseStrChars]
  | cons c cs ih =>
      intro rest f hf
      cases f with
      | zero => simp at hf
      | succ f =>
          have hrec := ih rest f (by simp at hf; omega)
          by_cases hesc : c = '\"' ∨ c = '\\'
          · simp only [escapeChars, hesc, if_true, List.cons_append, List.append_assoc]
            have h1 : ('\\' : Char) ≠ '\"' := by decide
            simp [parseStrChars, h1, hrec]
          · simp only [escapeChars, hesc, if_false, List.cons_append]
            push_neg at hesc
            simp [parseStrChars, hesc.1, hesc.2, hrec]

/-! ## Round-trip lemmas: head characters of printed values -/

/-- Characters that can follow a printed value without being mistaken
for part of it: anything that is not a digit (delimiters like comma and
the closing brackets qualify). -/
theorem noDigitStart_comma (r : List Char) : noDigitStart (',' :: r) = true := by
  simp [noDigitStart, isDigitCh]

theorem noDigitStart_rbracket (r : List Char) : noDigitStart (']' :: r) = true := by
  simp [noDigitStart, isDigitCh]

theorem noDigitStart_rbrace (r : List Char) : noDigitStart ('\x7d' :: r) = true := by
  simp [noDigitStart, isDigitCh]

/-- A digit character is none of the dispatch literals of `parseV` and
none of the delimiter characters. -/
theorem digit_ne_lits (c : Char) (h : isDigitCh c = true) :
    c ≠ '\"' ∧ c ≠ '[' ∧ c ≠ '\x7b' ∧ c ≠ '-' ∧ c ≠ ']' ∧ c ≠ ',' ∧ c ≠ '\x7d' := by
  simp only [isDigitCh, decide_eq_true_eq] at h
  refine ⟨?_, ?_, ?_, ?_, ?_, ?_, ?_⟩ <;>
    · intro he
      subst he
      simp at h

/-- Every printed value starts with a character, and that character is
not a delimiter (so element and field parsing can dispatch on it). -/
theorem printV_head (v : JsVal) :
    ∃ c cs, printV v = c :: cs ∧ c ≠ ']' ∧ c ≠ ',' ∧ c ≠ '\x7d' := by
  cases v with
  | vnull => exact ⟨'n', _, rfl, by decide, by decide, by decide⟩
  | vbool b =>
      cases b
      · exact ⟨'f', _, rfl, by decide, by decide, by decide⟩
      · exact ⟨'t', _, rfl, by decide, by decide, by decide⟩
  | vnum n =>
      by_cases hn : n < 0
      · refine ⟨'-', natChars n.natAbs, ?_, by decide, by decide, by decide⟩
        simp [printV, intChars, hn]
      · cases h : natChars n.toNat with
        | nil => exact absurd h (natChars_ne_nil _)
        | cons c cs =>
            have hd : isDigitCh c = true :=
              mem_natChars_digit n.toNat c (by rw [h]; exact List.mem_cons_self c cs)
            obtain ⟨_, _, _, _, h5, h6, h7⟩ := digit_ne_lits c hd
            refine ⟨c, cs, ?_, h5, h6, h7⟩
            simp [printV, intChars, hn, h]
  | vstr s => exact ⟨'\"', _, rfl, by decide, by decide, by decide⟩
  | varr l =>
      refine ⟨'[', printElems l ++ [']'], ?_, by decide, by decide, by decide⟩
      simp [printV]
  | vobj l =>
      refine ⟨'\x7b', printFields l ++ ['\x7d'], ?_, by decide, by decide, by decide⟩
      simp [printV]

/-- Lower bounds on the fuel sizes. -/
theorem one_le_sizeV (v : JsVal) : 1 ≤ sizeV v := by
  cases v <;> simp [sizeV]

theorem one_le_sizeEs (l : List JsVal) : 1 ≤ sizeEs l := by
  cases l with
  | nil => simp [sizeEs]
  | cons v t => simp [sizeEs]; omega

theorem one_le_sizeFs (l : List (String × JsVal)) : 1 ≤ sizeFs l := by
  cases l with
  | nil => simp [sizeFs]
  | cons f t => simp [sizeFs]; omega

/-! ## The round-trip theorem for the JSON serializer -/

/-- Master round-trip invariant, proved for value, element-list and
field-list parsing simultaneously by induction on fuel. -/
theorem parse_printV_all : ∀ f : Nat,
    (∀ v rest, noDigitStart rest = true → sizeV v ≤ f →
      parseV f (printV v ++ rest) = some (v, rest)) ∧
    (∀ l rest, sizeEs l ≤ f →
      parseEs f (printElems l ++ ']' :: rest) = some (l, rest)) ∧
    (∀ l rest, sizeFs l ≤ f →
      parseFs f (printFields l ++ '\x7d' :: rest) = some (l, rest)) := by
  intro f
  induction f with
  | zero =>
      refine ⟨?_, ?_, ?_⟩
      · intro v rest _ hs
        have := one_le_sizeV v
        omega
      · intro l rest hs
        have := one_le_sizeEs l
        omega
      · intro l rest hs
        have := one_le_sizeFs l
        omega
  | succ f ih =>
      obtain ⟨ih1, ih2, ih3⟩ := ih
      refine ⟨?_, ?_, ?_⟩
      · intro v rest hrest hs
        cases v with
        | vnull => rfl
        | vbool b => cases b <;> rfl
        | vnum n =>
            by_cases hn : n < 0
            · simp only [printV, intChars, if_pos hn, List.cons_append]
              show Option.map (fun p => (JsVal.vnum (-(p.1 : Int)), p.2))
                  (parseNatPart (natChars n.natAbs ++ rest)) = some (JsVal.vnum n, rest)
              rw [parseNatPart_natChars _ _ hrest]
              show some (JsVal.vnum (-((n.natAbs : Nat) : Int)), rest) = some (JsVal.vnum n, rest)
              rw [show -((n.natAbs : Nat) : Int) = n by omega]
            · have htn : ((n.toNat : Nat) : Int) = n := by omega
              cases h : natChars n.toNat with
              | nil => exact absurd h (natChars_ne_nil _)
              | cons c cs =>
                  have hd : isDigitCh c = true :=
                    mem_natChars_digit n.toNat c (by rw [h]; exact List.mem_cons_self c cs)
                  obtain ⟨hq, hb, hbr, hm, _, _, _⟩ := digit_ne_lits c hd
                  simp only [printV, intChars, if_neg hn, h, List.cons_append]
                  rw [parseV]
                  rw [if_neg hq, if_neg hb, if_neg hbr, if_neg hm, if_pos hd]
                  rw [show c :: (cs ++ rest) = natChars n.toNat ++ rest by rw [h]; rfl]
                  rw [parseNatPart_natChars _ _ hrest]
                  show some (JsVal.vnum ((n.toNat : Nat) : Int), rest) = some (JsVal.vnum n, rest)
                  rw [htn]
        | vstr s =>
            have hk : s.data.length + 1 ≤ f := by
              simp only [sizeV] at hs
              omega
            simp only [printV, List.cons_append, List.append_assoc, List.singleton_append]
            show Option.map (fun p => (JsVal.vstr (String.mk p.1), p.2))
                (parseStrChars f (escapeChars s.data ++ '\"' :: rest)) = some (JsVal.vstr s, rest)
            rw [parseStrChars_escape s.data rest f hk]
            rfl
        | varr l =>
            have hse : sizeEs l ≤ f := by
              simp only [sizeV] at hs
              omega
            simp only [printV, List.cons_append, List.append_assoc, List.singleton_append]
            show Option.map (fun p => (JsVal.varr p.1, p.2))
                (parseEs f (printElems l ++ ']' :: rest)) = some (JsVal.varr l, rest)
            rw [ih2 l rest hse]
            rfl
        | vobj l =>
            have hsf : sizeFs l ≤ f := by
              simp only [sizeV] at hs
              omega
            simp only [printV, List.cons_append, List.append_assoc, List.singleton_append]
            show Option.map (fun p => (JsVal.vobj p.1, p.2))
                (parseFs f (printFields l ++ '\x7d' :: rest)) = some (JsVal.vobj l, rest)
            rw [ih3 l rest hsf]
            rfl
      · intro l rest hs
        cases l with
        | nil => rfl
        | cons v t =>
            have hsv : sizeV v ≤ f := by
              have := one_le_sizeEs t
              simp only [sizeEs] at hs
              omega
            have hst : sizeEs t ≤ f := by
              have := one_le_sizeV v
              simp only [sizeEs] at hs
              omega
            obtain ⟨c, cs, hhead, hc1, hc2, hc3⟩ := printV_head v
            have hpe : ∃ ds, printElems (v :: t) = c :: ds := by
              cases t with
              | nil => exact ⟨cs, by simp [printElems, hhead]⟩
              | cons w t2 =>
                  exact ⟨cs ++ ',' :: printElems (w :: t2), by simp [printElems, hhead]⟩
            obtain ⟨ds, hds⟩ := hpe
            rw [show printElems (v :: t) ++ ']' :: rest = c :: (ds ++ ']' :: rest) by
              rw [hds]; rfl]
            rw [parseEs]
            · rw [show c :: (ds ++ ']' :: rest) = printElems (v :: t) ++ ']' :: rest by
                rw [hds]; rfl]
              cases t with
              | nil =>
                  simp only [printElems]
                  rw [ih1 v (']' :: rest) (noDigitStart_rbracket rest) hsv]
                  rfl
              | cons w t2 =>
                  simp only [printElems, List.append_assoc, List.cons_append]
                  rw [ih1 v (',' :: (printElems (w :: t2) ++ ']' :: rest))
                        (noDigitStart_comma _) hsv]
                  show Option.map (fun q => (v :: q.1, q.2))
                      (parseEs f (printElems (w :: t2) ++ ']' :: rest)) =
                    some (v :: w :: t2, rest)
                  rw [ih2 (w :: t2) rest hst]
                  rfl
            · intro r2 heq
              rw [List.cons_eq_cons] at heq
              exact hc1 heq.1
      · intro l rest hs
        cases l with
        | nil => rfl
        | cons kv t =>
            obtain ⟨k, v⟩ := kv
            have hs1 := one_le_sizeV v
            have hs2 := one_le_sizeFs t
            have hk : k.data.length + 1 ≤ f := by
              simp only [sizeFs] at hs
              omega
            have hsv : sizeV v ≤ f := by
              simp only [sizeFs] at hs
              omega
            have hst : sizeFs t ≤ f := by
              simp only [sizeFs] at hs
              omega
            cases t with
            | nil =>
                simp only [printFields, List.cons_append, List.append_assoc,
                  List.singleton_append]
                rw [parseFs]
                rw [parseStrChars_escape k.data _ f hk]
                show Option.bind (parseV f (printV v ++ '\x7d' :: rest))
                    (fun vp =>
                      match vp.2 with
                      | ',' :: r5 =>
                          (parseFs f r5).map fun q => ((String.mk k.data, vp.1) :: q.1, q.2)
                      | '\x7d' :: r5 => some ([(String.mk k.data, vp.1)], r5)
                      | _ => none) =
                  some ([(k, v)], rest)
                rw [ih1 v ('\x7d' :: rest) (noDigitStart_rbrace rest) hsv]
                rfl
            | cons kw t2 =>
                simp only [printFields, List.cons_append, List.append_assoc,
                  List.singleton_append]
                rw [parseFs]
                rw [parseStrChars_escape k.data _ f hk]
                show Option.bind
                    (parseV f (printV v ++ ',' :: (printFields (kw :: t2) ++ '\x7d' :: rest)))
                    (fun vp =>
                      match vp.2 with
                      | ',' :: r5 =>
                          (parseFs f r5).map fun q => ((String.mk k.data, vp.1) :: q.1, q.2)
                      | '\x7d' :: r5 => some ([(String.mk k.data, vp.1)], r5)
                      | _ => none) =
                  some ((k, v) :: kw :: t2, rest)
                rw [ih1 v (',' :: (printFields (kw :: t2) ++ '\x7d' :: rest))
                      (noDigitStart_comma _) hsv]
                show Option.map (fun q => ((String.mk k.data, v) :: q.1, q.2))
                    (parseFs f (printFields (kw :: t2) ++ '\x7d' :: rest)) =
                  some ((k, v) :: kw :: t2, rest)
                rw [ih3 (kw :: t2) rest hst]
                rfl

/-! ## HTTP layer: responses, headers, options (node-fetch inputs and outputs) -/

/-- An HTTP response as far as the library inspects it: status code,
status text, and the raw body text. -/
structure Response where
  status : Nat
  statusText : String
  body : String
deriving Repr, DecidableEq

/-- A JS object used as a header map, modelled as an association list. -/
abbrev Headers := List (String × String)

/-- Property assignment `m[k] = v` on a header object: overwrite the
existing binding in place, or append a new one. -/
def setEntry (m : Headers) (k v : String) : Headers :=
  if m.any fun e => e.1 = k then m.map fun e => if e.1 = k then (k, v) else e
  else m ++ [(k, v)]

/-- Property read `m[k]` on a header object. -/
def getEntry (m : Headers) (k : String) : Option String := m.lookup k

theorem getEntry_setEntry (m : Headers) (k v : String) :
    getEntry (setEntry m k v) k = some v := by
  unfold setEntry getEntry
  by_cases h : m.any fun e => e.1 = k
  · rw [if_pos h]
    induction m with
    | nil => simp at h
    | cons e t ih =>
        obtain ⟨ek, ev⟩ := e
        by_cases he : ek = k
        · rw [List.map_cons, if_pos (show ((ek, ev)).1 = k from he)]
          simp [List.lookup_cons]
        · have ht : (t.any fun e => decide (e.1 = k)) = true := by
            simp only [List.any_cons, Bool.or_eq_true, decide_eq_true_eq] at h
            rcases h with h | h
            · exact absurd h he
            · simpa using h
          rw [List.map_cons, if_neg (show ¬((ek, ev)).1 = k from he)]
          have hne : (k == ek) = false := by
            simp only [beq_eq_false_iff_ne, ne_eq]
            exact fun hk => he hk.symm
          simp only [List.lookup_cons, hne]
          exact ih ht
  · rw [if_neg h]
    induction m with
    | nil => simp [List.lookup_cons]
    | cons e t ih =>
        obtain ⟨ek, ev⟩ := e
        simp only [List.any_cons, Bool.or_eq_true, decide_eq_true_eq, not_or] at h
        have hne : (k == ek) = false := by
          simp only [beq_eq_false_iff_ne, ne_eq]
          exact fun hk => h.1 hk.symm
        rw [List.cons_append]
        simp only [List.lookup_cons, hne]
        exact ih (by simpa using h.2)

/-! ## The client session and the fetch collaborators -/

/-- The slice of the Spotify client (src/src/Spotify.js) that
`Util.fetch` touches: the current bearer `access_token`, and whether a
`refresher` collaborator is configured (`null` by default, truthy when
set). -/
structure Session where
  access_token : String
  refresherSet : Bool
deriving Repr, DecidableEq

/-- Effect of `this.spotify.set('access_token', v)`: `access_token` is
an own property of the client, so `Spotify.set`'s key check passes and
the property is assigned. -/
def Session.setAccessToken (s : Session) (v : String) : Session :=
  { s with access_token := v }

/-- The node-fetch options object `Util.fetch` builds and mutates:
header map, method, and serialized body. -/
structure Options where
  headers : Headers
  method : Option String
  body : Option String
deriving Repr, DecidableEq

/-- Default `options` argument of `Util.fetch`:
`{ headers: { 'Content-Type': 'application/json' } }`. -/
def defaultOptions : Options :=
  { headers := [("Content-Type", "application/json")], method := none, body := none }

/-- Default `method` argument of `Util.fetch`. -/
def defaultMethod : String := "get"

/-- The `body` argument of `Util.fetch`: a structured object, or an
already-serialized string (raw payload upload). The default is `{}`. -/
inductive BodyArg where
  | obj (fields : List (String × JsVal))
  | str (s : String)

/-- Value of `Object.keys(body).length`: key count for an object, one
key per character index for a string. -/
def BodyArg.keysLength : BodyArg → Nat
  | .obj l => l.length
  | .str s => s.length

/-- Body-serialization step of `Util.fetch` (src/unnamed/part_002):
`if (Object.keys(body).length) { if (typeof body == 'object')
options['body'] = JSON.stringify(body); else options['body'] = body; }`.
A string body passes through unchanged since `typeof` is `'string'`. -/
def applyBody (b : BodyArg) (o : Options) : Options :=
  if b.keysLength ≠ 0 then
    match b with
    | .obj l => { o with body := some (stringify (.vobj l)) }
    | .str s => { o with body := some s }
  else o

/-- All in-place mutations `Util.fetch` performs on the caller's
options object before calling node-fetch: `options['method'] = method`,
`options.headers['Authorization'] = 'Bearer ' + this.spotify.access_token`
(the session token read at call time), then the body serialization. -/
def optionsAfter (o : Options) (method tok : String) (b : BodyArg) : Options :=
  applyBody b
    { o with
        method := some method,
        headers := setEntry o.headers "Authorization" ("Bearer " ++ tok) }

/-- Record of one network call issued through node-fetch: the path and
the options (method, headers, body) it was invoked with. -/
structure NetCall where
  path : String
  method : Option String
  headers : Headers
  body : Option String
deriving Repr, DecidableEq

/-- Resolved value of `refresher.request()`: its `access_token`
property is either absent (undefined) or a string. -/
structure RefreshResult where
  access_token : Option String
deriving Repr, DecidableEq

/-- Truthiness of `res.access_token` as tested by the source
(`undefined` and the empty string are falsy). -/
def RefreshResult.tokenTruthy : RefreshResult → Bool
  | ⟨none⟩ => false
  | ⟨some s⟩ => s ≠ ""

/-- External oracles: the response to the n-th network call, and the
result of the n-th `refresher.request()` invocation. -/
structure FetchEnv where
  respond : Nat → Response
  refresh : Nat → RefreshResult

/-- Mutable state threaded through one logical `Util.fetch` call: the
shared session, the (mutated) options object, the trace of issued
network calls, and the number of refresh attempts. -/
structure FetchState where
  session : Session
  opts : Options
  calls : List NetCall
  refreshCount : Nat

/-! ## Util.fetch (src/unnamed/part_002, lines 23-59) -/

/-- Shallow embedding of `Util.fetch`. One unfolding = one network
call: mutate the options, call node-fetch; on a 401 with a truthy
`this.spotify.refresher`, invoke `refresher.request()`; if the result
has a truthy `access_token`, set the session token and resolve with a
full recursive `this.fetch({ path, method, body, options })`, else
resolve with the response; on any other status resolve with the
response. The recursion is unbounded in the source, so it is modelled
with fuel: `none` means the promise has not settled within the fuel. -/
def fetchGo (env : FetchEnv) (path method : String) (body : BodyArg) :
    Nat → FetchState → Option (Response × FetchState)
  | 0, _ => none
  | fuel + 1, st =>
      let o3 := optionsAfter st.opts method st.session.access_token body
      let call : NetCall :=
        { path := path, method := o3.method, headers := o3.headers, body := o3.body }
      let response := env.respond st.calls.length
      let st1 : FetchState := { st with opts := o3, calls := st.calls ++ [call] }
      if response.status = 401 ∧ st1.session.refresherSet = true then
        let res := env.refresh st1.refreshCount
        let st2 := { st1 with refreshCount := st1.refreshCount + 1 }
        if res.tokenTruthy then
          fetchGo env path method body fuel
            { st2 with session := st2.session.setAccessToken (res.access_token.getD "") }
        else some (response, st2)
      else some (response, st1)

/-- A whole `Util.fetch` call on a fresh promise: no calls issued yet,
no refresh attempted. -/
def Util.fetchRun (env : FetchEnv) (session : Session) (path method : String)
    (body : BodyArg) (opts : Options) (fuel : Nat) : Option (Response × FetchState) :=
  fetchGo env path method body fuel
    { session := session, opts := opts, calls := [], refreshCount := 0 }

/-- Number of network calls of a settled run. -/
def runCallCount (r : Option (Response × FetchState)) : Option Nat :=
  r.map fun p => p.2.calls.length

/-- Resolved status and number of network calls of a settled run. -/
def runStatusCalls (r : Option (Response × FetchState)) : Option (Nat × Nat) :=
  r.map fun p => (p.1.status, p.2.calls.length)

/-- Final options object of a settled run. -/
def runOpts (r : Option (Response × FetchState)) : Option Options :=
  r.map fun p => p.2.opts

/-- Authorization header a network call was issued with. -/
def authOf (c : NetCall) : Option String := getEntry c.headers "Authorization"

/-- Resolved response of a settled run. -/
def runResp (r : Option (Response × FetchState)) : Option Response :=
  r.map fun p => p.1

/-- Number of refresh attempts of a settled run. -/
def runRefreshes (r : Option (Response × FetchState)) : Option Nat :=
  r.map fun p => p.2.refreshCount

/-- Final session of a settled run. -/
def runSession (r : Option (Response × FetchState)) : Option Session :=
  r.map fun p => p.2.session

/-- Final session token of a settled run. -/
def runToken (r : Option (Response × FetchState)) : Option String :=
  r.map fun p => p.2.session.access_token

/-- Paths of the network calls of a settled run. -/
def callPaths (r : Option (Response × FetchState)) : Option (List String) :=
  r.map fun p => p.2.calls.map fun c => c.path

/-- Methods of the network calls of a settled run. -/
def callMethods (r : Option (Response × FetchState)) : Option (List (Option String)) :=
  r.map fun p => p.2.calls.map fun c => c.method

/-- Bodies of the network calls of a settled run. -/
def callBodies (r : Option (Response × FetchState)) : Option (List (Option String)) :=
  r.map fun p => p.2.calls.map fun c => c.body

/-- Authorization headers of the network calls of a settled run. -/
def runAuths (r : Option (Response × FetchState)) : Option (List (Option String)) :=
  r.map fun p => p.2.calls.map authOf

/-- Body serialization never touches the header map. -/
theorem applyBody_headers (b : BodyArg) (o : Options) : (applyBody b o).headers = o.headers := by
  unfold applyBody
  split
  · cases b <;> rfl
  · rfl

/-- Body serialization never touches the method. -/
theorem applyBody_method (b : BodyArg) (o : Options) : (applyBody b o).method = o.method := by
  unfold applyBody
  split
  · cases b <;> rfl
  · rfl

/-- Re-running the body serialization on an options object whose body
field already holds the serialized payload yields the same payload
again (what happens on the retry, which reuses the mutated options). -/
theorem applyBody_body_idem (b : BodyArg) (o o2 : Options)
    (h : o2.body = (applyBody b o).body) :
    (applyBody b o2).body = (applyBody b o).body := by
  by_cases hk : b.keysLength ≠ 0
  · unfold applyBody
    rw [if_pos hk, if_pos hk]
    cases b <;> rfl
  · unfold applyBody
    unfold applyBody at h
    rw [if_neg hk] at h
    rw [if_neg hk, if_neg hk]
    exact h

/-- The options object after the mutations carries
`Authorization: Bearer <tok>`. -/
theorem optionsAfter_auth (o : Options) (method tok : String) (b : BodyArg) :
    getEntry (optionsAfter o method tok b).headers "Authorization" =
      some ("Bearer " ++ tok) := by
  unfold optionsAfter
  rw [applyBody_headers]
  exact getEntry_setEntry o.headers "Authorization" ("Bearer " ++ tok)

theorem optionsAfter_method (o : Options) (method tok : String) (b : BodyArg) :
    (optionsAfter o method tok b).method = some method := by
  unfold optionsAfter
  rw [applyBody_method]

/-- Trace view of a settled run: resolved response, final session
token, and for each network call its path, method, body and
Authorization header. -/
def runTrace (r : Option (Response × FetchState)) :
    Option (Response × String ×
      List (String × Option String × Option String × Option String)) :=
  r.map fun p =>
    (p.1, p.2.session.access_token, p.2.calls.map fun c => (c.path, c.method, c.body, authOf c))

/-! ## Concrete oracles used as test inputs -/

/-- Oracle answering every network call with a bare 401 and every
refresh with a result carrying no token. -/
def env401NoToken : FetchEnv :=
  { respond := fun _ => { status := 401, statusText := "Unauthorized", body := "" },
    refresh := fun _ => { access_token := none } }

/-- Oracle answering every network call with 200. -/
def env200 : FetchEnv :=
  { respond := fun _ => { status := 200, statusText := "OK", body := "\x7b\"id\":\"abc123\"\x7d" },
    refresh := fun _ => { access_token := none } }

/-- Oracle answering the first two network calls with 401 and later
ones with 200, while every refresh yields a fresh truthy token: the
token granted after the first refresh is itself rejected once. -/
def envTwice401 : FetchEnv :=
  { respond := fun n =>
      if n < 2 then { status := 401, statusText := "Unauthorized", body := "" }
      else { status := 200, statusText := "OK", body := "\x7b\"id\":\"abc123\"\x7d" },
    refresh := fun n => { access_token := some (String.mk ('t' :: natChars n)) } }

/-- Oracle answering every call with 401 while every refresh yields a
fresh truthy token. -/
def envAlways401 : FetchEnv :=
  { respond := fun _ => { status := 401, statusText := "Unauthorized", body := "" },
    refresh := fun n => { access_token := some (String.mk ('t' :: natChars n)) } }

/-- A session with an expired token and a configured refresher. -/
def sessionWithRefresher : Session := { access_token := "expired", refresherSet := true }

/-- The sample path used in concrete runs. -/
def samplePath : String := "https://api.spotify.com/v1/artists/abc123"

/-- The network call record assembled from the path and the mutated
options. -/
def stepCall (path : String) (o3 : Options) : NetCall :=
  { path := path, method := o3.method, headers := o3.headers, body := o3.body }

/-- One unfolding of `Util.fetch` when the response does not enter the
refresh path: resolve with the response; the only state changes are the
options mutation and the recorded network call. -/
theorem fetchGo_step_noRefresh (env : FetchEnv) (path method : String) (body : BodyArg)
    (g : Nat) (st : FetchState)
    (h : ¬((env.respond st.calls.length).status = 401 ∧ st.session.refresherSet = true)) :
    fetchGo env path method body (g + 1) st =
      some (env.respond st.calls.length,
        { st with
            opts := optionsAfter st.opts method st.session.access_token body,
            calls := st.calls ++ [stepCall path (optionsAfter st.opts method st.session.access_token body)] }) := by
  rw [fetchGo]
  rw [if_neg (by simpa using h)]
  rfl

/-- One unfolding of `Util.fetch` on a 401 with a configured refresher
whose request yields no truthy token: resolve with this response after
one refresh attempt. -/
theorem fetchGo_step_refreshFail (env : FetchEnv) (path method : String) (body : BodyArg)
    (g : Nat) (st : FetchState)
    (h1 : (env.respond st.calls.length).status = 401)
    (h2 : st.session.refresherSet = true)
    (h3 : (env.refresh st.refreshCount).tokenTruthy = false) :
    fetchGo env path method body (g + 1) st =
      some (env.respond st.calls.length,
        { st with
            opts := optionsAfter st.opts method st.session.access_token body,
            calls := st.calls ++ [stepCall path (optionsAfter st.opts method st.session.access_token body)],
            refreshCount := st.refreshCount + 1 }) := by
  rw [fetchGo]
  rw [if_pos (by simpa using And.intro h1 h2)]
  rw [if_neg (by simpa using h3)]
  rfl

/-- One unfolding of `Util.fetch` on a 401 with a configured refresher
whose request yields a truthy token: set the session token and restart
the whole fetch on the mutated options. -/
theorem fetchGo_step_refreshOk (env : FetchEnv) (path method : String) (body : BodyArg)
    (g : Nat) (st : FetchState)
    (h1 : (env.respond st.calls.length).status = 401)
    (h2 : st.session.refresherSet = true)
    (h3 : (env.refresh st.refreshCount).tokenTruthy = true) :
    fetchGo env path method body (g + 1) st =
      fetchGo env path method body g
        { session := st.session.setAccessToken
            ((env.refresh st.refreshCount).access_token.getD ""),
          opts := optionsAfter st.opts method st.session.access_token body,
          calls := st.calls ++ [stepCall path (optionsAfter st.opts method st.session.access_token body)],
          refreshCount := st.refreshCount + 1 } := by
  rw [fetchGo]
  rw [if_pos (by simpa using And.intro h1 h2)]
  rw [if_pos (by simpa using h3)]
  rfl

/-! ## Claim theorems: the 401 refresh coordinator -/

/-- C3: when the response to a request has status 401 and no refresh
collaborator is configured on the session, `Util.fetch` resolves with
that 401 response itself, after exactly one network call and with no
refresh attempt. -/
theorem fetch_401_without_refresher (env : FetchEnv) (session : Session)
    (path method : String) (body : BodyArg) (opts : Options) (fuel : Nat)
    (hr : session.refresherSet = false)
    (h401 : (env.respond 0).status = 401)
    (hf : 1 ≤ fuel) :
    runResp (Util.fetchRun env session path method body opts fuel) = some (env.respond 0) ∧
    runCallCount (Util.fetchRun env session path method body opts fuel) = some 1 ∧
    runRefreshes (Util.fetchRun env session path method body opts fuel) = some 0 := by
  cases fuel with
  | zero => omega
  | succ g =>
      refine ⟨?_, ?_, ?_⟩ <;>
        simp [Util.fetchRun, fetchGo, hr, runResp, runCallCount, runRefreshes]

/-- Concrete check of `fetch_401_without_refresher`: a GET with a bare
401 answer and no refresher resolves with the 401 after one call. -/
theorem fetch_401_without_refresher_check :
    ({ access_token := "tok", refresherSet := false } : Session).refresherSet = false ∧
    (env401NoToken.respond 0).status = 401 ∧
    (1 : Nat) ≤ 1 ∧
    (runResp (Util.fetchRun env401NoToken { access_token := "tok", refresherSet := false }
        samplePath "get" (BodyArg.obj []) defaultOptions 1) = some (env401NoToken.respond 0) ∧
      runCallCount (Util.fetchRun env401NoToken { access_token := "tok", refresherSet := false }
        samplePath "get" (BodyArg.obj []) defaultOptions 1) = some 1 ∧
      runRefreshes (Util.fetchRun env401NoToken { access_token := "tok", refresherSet := false }
        samplePath "get" (BodyArg.obj []) defaultOptions 1) = some 0) :=
  ⟨rfl, rfl, le_rfl,
    fetch_401_without_refresher env401NoToken { access_token := "tok", refresherSet := false }
      samplePath "get" (BodyArg.obj []) defaultOptions 1 rfl rfl le_rfl⟩

/-- C4: when the response has status 401, a refresher is configured,
and the refresh result carries no truthy access_token, `Util.fetch`
makes exactly one refresh attempt, issues no second network call,
leaves the session token unchanged, and resolves with the original 401
response. -/
theorem fetch_401_refresh_fails (env : FetchEnv) (session : Session)
    (path method : String) (body : BodyArg) (opts : Options) (fuel : Nat)
    (hr : session.refresherSet = true)
    (h401 : (env.respond 0).status = 401)
    (ht : (env.refresh 0).tokenTruthy = false)
    (hf : 1 ≤ fuel) :
    runResp (Util.fetchRun env session path method body opts fuel) = some (env.respond 0) ∧
    runCallCount (Util.fetchRun env session path method body opts fuel) = some 1 ∧
    runRefreshes (Util.fetchRun env session path method body opts fuel) = some 1 ∧
    runToken (Util.fetchRun env session path method body opts fuel) =
      some session.access_token := by
  cases fuel with
  | zero => omega
  | succ g =>
      refine ⟨?_, ?_, ?_, ?_⟩ <;>
        simp [Util.fetchRun, fetchGo, hr, h401, ht,
          runResp, runCallCount, runRefreshes, runToken]

/-- C2 (amended): on a first 401 with a configured refresher whose
request yields a truthy access_token, the session token is set to the
new token and the same path/method/body is reissued with an
Authorization header built from the new token. Provided the retried
response does not itself enter a successful refresh (it is not again a
401 met by a truthy refresh result), the reissue happens exactly once
and the run resolves with the second response. -/
theorem fetch_401_refresh_succeeds (env : FetchEnv) (session : Session)
    (path method : String) (body : BodyArg) (opts : Options) (fuel : Nat)
    (hr : session.refresherSet = true)
    (h401 : (env.respond 0).status = 401)
    (ht : (env.refresh 0).tokenTruthy = true)
    (hsecond : ¬((env.respond 1).status = 401 ∧ (env.refresh 1).tokenTruthy = true))
    (hf : 2 ≤ fuel) :
    runTrace (Util.fetchRun env session path method body opts fuel) =
      some (env.respond 1, (env.refresh 0).access_token.getD "",
        [(path, some method, (optionsAfter opts method session.access_token body).body,
            some ("Bearer " ++ session.access_token)),
         (path, some method, (optionsAfter opts method session.access_token body).body,
            some ("Bearer " ++ (env.refresh 0).access_token.getD ""))]) := by
  obtain ⟨g, rfl⟩ : ∃ g, fuel = g + 2 := ⟨fuel - 2, by omega⟩
  unfold Util.fetchRun
  rw [show g + 2 = (g + 1) + 1 from rfl]
  rw [fetchGo_step_refreshOk env path method body (g + 1) _ (by simpa using h401)
        (by simpa using hr) (by simpa using ht)]
  have hbody : (optionsAfter (optionsAfter opts method session.access_token body) method
      ((env.refresh 0).access_token.getD "") body).body =
      (optionsAfter opts method session.access_token body).body := by
    unfold optionsAfter
    exact applyBody_body_idem body _ _ rfl
  by_cases hc : (env.respond 1).status = 401
  · have hrf : (env.refresh 1).tokenTruthy = false := by
      rcases Bool.eq_false_or_eq_true ((env.refresh 1).tokenTruthy) with h | h
      · exact absurd ⟨hc, h⟩ hsecond
      · exact h
    rw [fetchGo_step_refreshFail env path method body g _ (by simpa using hc)
          (by simpa using hr) (by simpa using hrf)]
    unfold runTrace
    simp [stepCall, authOf, optionsAfter_auth, optionsAfter_method, hbody,
      Session.setAccessToken]
  · rw [fetchGo_step_noRefresh env path method body g _ (by simp [hc])]
    unfold runTrace
    simp [stepCall, authOf, optionsAfter_auth, optionsAfter_method, hbody,
      Session.setAccessToken]

/-- Oracle for the spec's refresh scenario: the first call gets 401,
later calls get 200, and the refresh yields the token `new`. -/
def envRefreshScenario : FetchEnv :=
  { respond := fun n =>
      if n = 0 then { status := 401, statusText := "Unauthorized", body := "" }
      else { status := 200, statusText := "OK", body := "\x7b\"id\":\"abc123\"\x7d" },
    refresh := fun _ => { access_token := some "new" } }

/-- Concrete check of `fetch_401_refresh_succeeds` on the spec's
scenario: expired token, 401, refresh to `new`, retried call succeeds. -/
theorem fetch_401_refresh_succeeds_check :
    (sessionWithRefresher.refresherSet = true ∧
      (envRefreshScenario.respond 0).status = 401 ∧
      (envRefreshScenario.refresh 0).tokenTruthy = true ∧
      ¬((envRefreshScenario.respond 1).status = 401 ∧
          (envRefreshScenario.refresh 1).tokenTruthy = true) ∧
      (2 : Nat) ≤ 2) ∧
    runTrace (Util.fetchRun envRefreshScenario sessionWithRefresher samplePath "get"
        (BodyArg.obj []) defaultOptions 2) =
      some (envRefreshScenario.respond 1,
        (envRefreshScenario.refresh 0).access_token.getD "",
        [(samplePath, some "get",
            (optionsAfter defaultOptions "get" sessionWithRefresher.access_token
              (BodyArg.obj [])).body,
            some ("Bearer " ++ sessionWithRefresher.access_token)),
         (samplePath, some "get",
            (optionsAfter defaultOptions "get" sessionWithRefresher.access_token
              (BodyArg.obj [])).body,
            some ("Bearer " ++ (envRefreshScenario.refresh 0).access_token.getD ""))]) :=
  ⟨⟨rfl, rfl, rfl, by decide, le_rfl⟩,
    fetch_401_refresh_succeeds envRefreshScenario sessionWithRefresher samplePath "get"
      (BodyArg.obj []) defaultOptions 2 rfl rfl rfl (by decide) le_rfl⟩

/-- C2 counterexample: when the retried request is itself answered 401
and the refresher again yields a token, the descriptor is reissued a
second time — three network calls — and the run does not resolve with
the second response. -/
theorem fetch_401_refresh_reissues_twice :
    runCallCount (Util.fetchRun envTwice401 sessionWithRefresher samplePath "get"
        (BodyArg.obj []) defaultOptions 9) = some 3 ∧
    runResp (Util.fetchRun envTwice401 sessionWithRefresher samplePath "get"
        (BodyArg.obj []) defaultOptions 9) ≠ some (envTwice401.respond 1) :=
  ⟨by decide, by decide⟩

/-- C1: with the first two responses 401 and a refresher that keeps
yielding truthy tokens, `Util.fetch` issues three network calls for one
logical request and resolves with the third response instead of
surfacing the second 401: the retry is a full recursive call with no
retry bound. -/
theorem fetch_three_calls_on_repeated_401 :
    runStatusCalls (Util.fetchRun envTwice401 sessionWithRefresher samplePath "get"
        (BodyArg.obj []) defaultOptions 9) = some (200, 3) := by decide

/-- With every response 401 and every refresh yielding a truthy token,
`Util.fetch` never settles, whatever the fuel: the recursion is
unbounded. -/
theorem fetchGo_always401_never_settles (path method : String) (body : BodyArg) :
    ∀ (fuel : Nat) (st : FetchState), st.session.refresherSet = true →
      fetchGo envAlways401 path method body fuel st = none := by
  intro fuel
  induction fuel with
  | zero => intro st _; rfl
  | succ g ih =>
      intro st h
      have hne : String.mk ('t' :: natChars st.refreshCount) ≠ "" := by
        intro he
        have := congrArg String.data he
        simp at this
      have htok : (envAlways401.refresh st.refreshCount).tokenTruthy = true := by
        simp [envAlways401, RefreshResult.tokenTruthy, hne]
      rw [fetchGo_step_refreshOk envAlways401 path method body g st rfl h htok]
      exact ih _ h

/-- C10 (amended): a run that does not enter the refresh path makes
exactly one network call, attempts no refresh, and leaves the session
(token and refresher) unchanged; the caller's options object, however,
is updated in place with the method, the Authorization header derived
from the current session token, and the serialized body. -/
theorem fetch_noRefresh_frame (env : FetchEnv) (session : Session)
    (path method : String) (body : BodyArg) (opts : Options) (fuel : Nat)
    (h : ¬((env.respond 0).status = 401 ∧ session.refresherSet = true))
    (hf : 1 ≤ fuel) :
    runResp (Util.fetchRun env session path method body opts fuel) = some (env.respond 0) ∧
    runSession (Util.fetchRun env session path method body opts fuel) = some session ∧
    runRefreshes (Util.fetchRun env session path method body opts fuel) = some 0 ∧
    runCallCount (Util.fetchRun env session path method body opts fuel) = some 1 ∧
    runOpts (Util.fetchRun env session path method body opts fuel) =
      some (optionsAfter opts method session.access_token body) := by
  obtain ⟨g, rfl⟩ : ∃ g, fuel = g + 1 := ⟨fuel - 1, by omega⟩
  unfold Util.fetchRun
  rw [fetchGo_step_noRefresh env path method body g _ (by simpa using h)]
  exact ⟨rfl, rfl, rfl, by simp [runCallCount], rfl⟩

/-- Concrete check of `fetch_noRefresh_frame`: a 200-answered GET. -/
theorem fetch_noRefresh_frame_check :
    (¬((env200.respond 0).status = 401 ∧
        ({ access_token := "tok", refresherSet := false } : Session).refresherSet = true) ∧
      (1 : Nat) ≤ 1) ∧
    (runResp (Util.fetchRun env200 { access_token := "tok", refresherSet := false }
        samplePath "get" (BodyArg.obj []) defaultOptions 1) = some (env200.respond 0) ∧
      runSession (Util.fetchRun env200 { access_token := "tok", refresherSet := false }
        samplePath "get" (BodyArg.obj []) defaultOptions 1) =
        some { access_token := "tok", refresherSet := false } ∧
      runRefreshes (Util.fetchRun env200 { access_token := "tok", refresherSet := false }
        samplePath "get" (BodyArg.obj []) defaultOptions 1) = some 0 ∧
      runCallCount (Util.fetchRun env200 { access_token := "tok", refresherSet := false }
        samplePath "get" (BodyArg.obj []) defaultOptions 1) = some 1 ∧
      runOpts (Util.fetchRun env200 { access_token := "tok", refresherSet := false }
        samplePath "get" (BodyArg.obj []) defaultOptions 1) =
        some (optionsAfter defaultOptions "get" "tok" (BodyArg.obj []))) :=
  ⟨⟨by decide, le_rfl⟩,
    fetch_noRefresh_frame env200 { access_token := "tok", refresherSet := false }
      samplePath "get" (BodyArg.obj []) defaultOptions 1 (by decide) le_rfl⟩

/-- C10 counterexample: a plain 200-answered GET leaves the
caller-supplied options object changed (Authorization and method were
written into it), refuting the no-side-effects claim. -/
theorem fetch_mutates_caller_options :
    runOpts (Util.fetchRun env200 { access_token := "tok", refresherSet := false }
        samplePath "get" (BodyArg.obj []) defaultOptions 1) ≠ some defaultOptions := by
  decide

/-- Concrete check of `fetch_401_refresh_fails`. -/
theorem fetch_401_refresh_fails_check :
    sessionWithRefresher.refresherSet = true ∧
    (env401NoToken.respond 0).status = 401 ∧
    (env401NoToken.refresh 0).tokenTruthy = false ∧
    (1 : Nat) ≤ 1 ∧
    (runResp (Util.fetchRun env401NoToken sessionWithRefresher
        samplePath "get" (BodyArg.obj []) defaultOptions 1) = some (env401NoToken.respond 0) ∧
      runCallCount (Util.fetchRun env401NoToken sessionWithRefresher
        samplePath "get" (BodyArg.obj []) defaultOptions 1) = some 1 ∧
      runRefreshes (Util.fetchRun env401NoToken sessionWithRefresher
        samplePath "get" (BodyArg.obj []) defaultOptions 1) = some 1 ∧
      runToken (Util.fetchRun env401NoToken sessionWithRefresher
        samplePath "get" (BodyArg.obj []) defaultOptions 1) =
        some sessionWithRefresher.access_token) :=
  ⟨rfl, rfl, rfl, le_rfl,
    fetch_401_refresh_fails env401NoToken sessionWithRefresher
      samplePath "get" (BodyArg.obj []) defaultOptions 1 rfl rfl rfl le_rfl⟩

/-! ## Response body parsing and outcome classification -/

/-- Modelled from the spec: `Util.toJson` — the response-body parsing
operation every manager invokes as `this.spotify.util.toJson(response)`
— is declared in no `src/` revision of `Util` (only its callers exist
in the repository sources). Following the spec's classification rules,
it parses the response body as JSON and yields the parsed value, or a
falsy result when the body is not parseable JSON (no-content bodies
included). -/
def toJsonModel (resp : Response) : Option JsVal :=
  match parseV (2 * resp.body.data.length + 4) resp.body.data with
  | some (v, []) => some v
  | _ => none

/-- The three classified outcomes a settled endpoint promise carries:
`resolve(value)`, `reject(new ApiError(body.error))`, or
`reject(new HTTPError(response))`. -/
inductive Outcome where
  | success (v : JsVal) : Outcome
  | apiFailure (err : Option JsVal) : Outcome
  | httpFailure (status : Nat) (statusText : String) : Outcome

/-- Whether an outcome is an ApiFailure. -/
def Outcome.isApiFailure : Outcome → Bool
  | .apiFailure _ => true
  | _ => false

/-- Message built by `HTTPError` (src/unnamed/part_003):
only the status code and the status text. -/
def HTTPError.message (resp : Response) : String :=
  "HTTP Error Response: " ++ toString resp.status ++ " " ++ resp.statusText

/-- Classification callback shared by `TrackManager.get`
(src/unnamed/part_011, lines 321-331) and the read endpoints of
`UserManager` (src/src/managers/User.js): with a truthy parsed body,
status 200 resolves the structure built from the body (`Base` just
`Object.assign`s the data onto it, so the carried value is the body),
while any other status rejects `ApiError(body.error)`; a falsy body
rejects `HTTPError(response)`. The trailing unconditional
`reject(new HTTPError(response))` runs against an already-settled
promise and is a no-op. -/
def classifyBody (resp : Response) (body : Option JsVal) : Outcome :=
  match body with
  | some b =>
      if truthy b then
        if resp.status = 200 then .success b
        else .apiFailure (getField b "error")
      else .httpFailure resp.status resp.statusText
  | none => .httpFailure resp.status resp.statusText

/-- Classification callback of `UserManager.follow`
(src/src/managers/User.js, lines 146-162): status 204 resolves the
status marker `{status: response.status}`; otherwise a truthy body
rejects `ApiError(body.error)` and a falsy one rejects
`HTTPError(response)`. -/
def classifyFollow (resp : Response) (body : Option JsVal) : Outcome :=
  if resp.status = 204 then .success (.vobj [("status", .vnum (resp.status : Int))])
  else
    match body with
    | some b =>
        if truthy b then .apiFailure (getField b "error")
        else .httpFailure resp.status resp.statusText
    | none => .httpFailure resp.status resp.statusText

/-- Resolution callback of `Spotify.genres` (src/src/Spotify.js): with
a truthy body, status 200 resolves `body.genres` and other statuses
resolve the body itself; a falsy body resolves the marker
`{status: response.status}`. Only the first `resolve` takes effect. -/
def genresClassify (resp : Response) (body : Option JsVal) : Option JsVal :=
  match body with
  | some b =>
      if truthy b then
        if resp.status = 200 then getField b "genres" else some b
      else some (.vobj [("status", .vnum (resp.status : Int))])
  | none => some (.vobj [("status", .vnum (resp.status : Int))])

/-- Outcome of the `TrackManager.get` pipeline on a response, with the
body parsing supplied by the spec-modelled `Util.toJson`. -/
def TrackManager.getOutcome (resp : Response) : Outcome :=
  classifyBody resp (toJsonModel resp)

/-- Outcome of the `UserManager.follow` pipeline on a response, with
the body parsing supplied by the spec-modelled `Util.toJson`. -/
def UserManager.followOutcome (resp : Response) : Outcome :=
  classifyFollow resp (toJsonModel resp)

/-! ## The missing `Util.toJson` member (C5) -/

/-- Method table of `class Util` in the source (src/unnamed/part_001
and src/unnamed/part_002): a constructor and `fetch`, nothing else. -/
def Util.methodNames : List String := ["constructor", "fetch"]

/-- Runtime failure of calling a missing member. -/
inductive JsRuntimeError where
  | typeError : JsRuntimeError
deriving DecidableEq, Repr

/-- Evaluation of `this.spotify.util.toJson(response)`: a member lookup
on the util object followed by a call. `Util` defines no `toJson`, so
the lookup yields undefined and the call raises a TypeError; were the
member present, it would parse the body. -/
def utilCallToJson (resp : Response) : Except JsRuntimeError (Option JsVal) :=
  if Util.methodNames.contains "toJson" then .ok (toJsonModel resp)
  else .error .typeError

/-- The response handler of `Spotify.genres` as written: the `toJson`
member call happens before any classification. -/
def Spotify.genresHandle (resp : Response) : Except JsRuntimeError (Option JsVal) :=
  (utilCallToJson resp).map fun body => genresClassify resp body

/-- The response handler of `UserManager.follow` as written. -/
def UserManager.followHandle (resp : Response) : Except JsRuntimeError Outcome :=
  (utilCallToJson resp).map fun body => classifyFollow resp body

/-- The response handler of `TrackManager.get` as written. -/
def TrackManager.getHandle (resp : Response) : Except JsRuntimeError Outcome :=
  (utilCallToJson resp).map fun body => classifyBody resp body

/-! ## Request construction of UserManager.follow (C7) -/

/-- querystring.stringify on an object literal: key=value pairs joined
with ampersands, in property order (percent-encoding is omitted in the
model: Spotify ids and type names contain only URL-safe characters). -/
def qsStringify (ps : List (String × String)) : String :=
  String.intercalate "&" (ps.map fun p => p.1 ++ "=" ++ p.2)

/-- The `ids` argument of `UserManager.follow`: a single id string or
an array of ids. -/
inductive IdsArg where
  | one (s : String)
  | many (l : List String)

/-- `Array.isArray(ids) ? ids.join(',') : ids`. -/
def idsParam : IdsArg → String
  | .one s => s
  | .many l => String.intercalate "," l

/-- A request descriptor as handed to `Util.fetch` by an endpoint. -/
structure RequestArgs where
  path : String
  method : String
deriving DecidableEq, Repr

/-- Request built by `UserManager.follow` (src/src/managers/User.js):
a PUT to `/me/following` with the ids and `type=user`. -/
def UserManager.followRequest (ids : IdsArg) : RequestArgs :=
  { path := "https://api.spotify.com/v1/me/following?" ++
      qsStringify [("ids", idsParam ids), ("type", "user")],
    method := "put" }

/-! ## Claim theorems: classification -/

/-- C5: `Util` defines only a constructor and `fetch` — no `toJson` —
so every endpoint handler that invokes
`this.spotify.util.toJson(response)` fails with a TypeError on every
response, before any classification into
Success/ApiFailure/HttpFailure can occur. -/
theorem util_toJson_missing_typeError :
    Util.methodNames = ["constructor", "fetch"] ∧
    Util.methodNames.contains "toJson" = false ∧
    ∀ resp : Response,
      Spotify.genresHandle resp = .error .typeError ∧
      UserManager.followHandle resp = .error .typeError ∧
      TrackManager.getHandle resp = .error .typeError :=
  ⟨rfl, rfl, fun _ => ⟨rfl, rfl, rfl⟩⟩

/-- A 200 response whose JSON body carries an application-level error
payload. -/
def respErr200 : Response :=
  { status := 200, statusText := "OK",
    body := "\x7b\"error\":\x7b\"status\":400,\"message\":\"oops\"\x7d\x7d" }

/-- C6 counterexample: a 200 response whose parsed JSON body contains
an `error` field is classified Success carrying the body — error field
and all — not ApiFailure. -/
theorem twoxx_error_field_not_apiFailure :
    TrackManager.getOutcome respErr200 =
      .success (.vobj [("error", .vobj [("status", .vnum 400), ("message", .vstr "oops")])]) ∧
    (getField (.vobj [("error", .vobj [("status", .vnum 400), ("message", .vstr "oops")])])
        "error").isSome = true ∧
    (TrackManager.getOutcome respErr200).isApiFailure = false :=
  ⟨rfl, rfl, rfl⟩

/-- C6 (amended): for a 2xx response with a truthy parsed JSON body,
the read-endpoint classification depends on the exact status: at any
2xx status other than 200 the outcome is ApiFailure carrying
`body.error` — even though the HTTP status indicated success, and in
particular when an application-level error field is present; at exactly
200 the outcome is Success carrying the body, even when an error field
is present. -/
theorem twoxx_error_field_classification :
    (∀ (resp : Response) (b e : JsVal),
        toJsonModel resp = some b → truthy b = true →
        200 ≤ resp.status → resp.status < 300 → resp.status ≠ 200 →
        getField b "error" = some e →
        TrackManager.getOutcome resp = .apiFailure (some e)) ∧
    (∀ (resp : Response) (b : JsVal),
        toJsonModel resp = some b → truthy b = true → resp.status = 200 →
        TrackManager.getOutcome resp = .success b) := by
  constructor
  · intro resp b e hb htr _ _ hne herr
    unfold TrackManager.getOutcome
    rw [hb]
    show (if truthy b = true then
        if resp.status = 200 then Outcome.success b
        else Outcome.apiFailure (getField b "error")
      else Outcome.httpFailure resp.status resp.statusText) = Outcome.apiFailure (some e)
    rw [if_pos htr, if_neg hne, herr]
  · intro resp b hb htr h200
    unfold TrackManager.getOutcome
    rw [hb]
    show (if truthy b = true then
        if resp.status = 200 then Outcome.success b
        else Outcome.apiFailure (getField b "error")
      else Outcome.httpFailure resp.status resp.statusText) = Outcome.success b
    rw [if_pos htr, if_pos h200]

/-- A 201 response whose JSON body carries an error payload. -/
def respErr201 : Response :=
  { status := 201, statusText := "Created",
    body := "\x7b\"error\":\x7b\"status\":400,\"message\":\"oops\"\x7d\x7d" }

/-- Concrete check of `twoxx_error_field_classification` on a 201 and a
200 response with an embedded error payload. -/
theorem twoxx_error_field_classification_check :
    (toJsonModel respErr201 =
        some (.vobj [("error", .vobj [("status", .vnum 400), ("message", .vstr "oops")])]) ∧
      truthy (.vobj [("error", .vobj [("status", .vnum 400), ("message", .vstr "oops")])]) = true ∧
      200 ≤ respErr201.status ∧ respErr201.status < 300 ∧ respErr201.status ≠ 200 ∧
      getField (.vobj [("error", .vobj [("status", .vnum 400), ("message", .vstr "oops")])])
          "error" = some (.vobj [("status", .vnum 400), ("message", .vstr "oops")]) ∧
      TrackManager.getOutcome respErr201 =
        .apiFailure (some (.vobj [("status", .vnum 400), ("message", .vstr "oops")]))) ∧
    (toJsonModel respErr200 =
        some (.vobj [("error", .vobj [("status", .vnum 400), ("message", .vstr "oops")])]) ∧
      respErr200.status = 200 ∧
      TrackManager.getOutcome respErr200 =
        .success (.vobj [("error", .vobj [("status", .vnum 400), ("message", .vstr "oops")])])) :=
  ⟨⟨rfl, rfl, by decide, by decide, by decide, rfl,
      twoxx_error_field_classification.1 respErr201
        (.vobj [("error", .vobj [("status", .vnum 400), ("message", .vstr "oops")])])
        (.vobj [("status", .vnum 400), ("message", .vstr "oops")])
        rfl rfl (by decide) (by decide) (by decide) rfl⟩,
    ⟨rfl, rfl,
      twoxx_error_field_classification.2 respErr200
        (.vobj [("error", .vobj [("status", .vnum 400), ("message", .vstr "oops")])])
        rfl rfl rfl⟩⟩

/-- C7: every request `UserManager.follow` builds is a PUT to
`/me/following`, and a 204 response with an empty body classifies as
Success carrying the status-only marker `{status: 204}`. -/
theorem follow_204_success (ids : IdsArg) (resp : Response)
    (h204 : resp.status = 204) (hbody : resp.body = "") :
    (UserManager.followRequest ids).method = "put" ∧
    UserManager.followOutcome resp = .success (.vobj [("status", .vnum 204)]) := by
  refine ⟨rfl, ?_⟩
  unfold UserManager.followOutcome classifyFollow
  rw [if_pos h204, h204]
  rfl

/-- Concrete check of `follow_204_success`: the spec's scenario
`PUT /me/following?ids=abc&type=user` answered 204 with empty body. -/
theorem follow_204_success_check :
    (({ status := 204, statusText := "No Content", body := "" } : Response).status = 204 ∧
      ({ status := 204, statusText := "No Content", body := "" } : Response).body = "") ∧
    (UserManager.followRequest (IdsArg.one "abc")).path =
      "https://api.spotify.com/v1/me/following?ids=abc&type=user" ∧
    ((UserManager.followRequest (IdsArg.one "abc")).method = "put" ∧
      UserManager.followOutcome { status := 204, statusText := "No Content", body := "" } =
        .success (.vobj [("status", .vnum 204)])) :=
  ⟨⟨rfl, rfl⟩, rfl,
    follow_204_success (IdsArg.one "abc")
      { status := 204, statusText := "No Content", body := "" } rfl rfl⟩

/-- C8: a non-2xx response whose body does not parse as JSON classifies
as HttpFailure carrying exactly the status code and the status text
(the HTTPError message contains just those); the classification is a
total function on responses, so the caller receives a classified
rejection rather than an escaped exception. -/
theorem non2xx_unparseable_httpFailure (resp : Response)
    (hp : toJsonModel resp = none)
    (hs : ¬(200 ≤ resp.status ∧ resp.status < 300)) :
    TrackManager.getOutcome resp = .httpFailure resp.status resp.statusText ∧
    HTTPError.message resp =
      "HTTP Error Response: " ++ toString resp.status ++ " " ++ resp.statusText := by
  refine ⟨?_, rfl⟩
  unfold TrackManager.getOutcome classifyBody
  rw [hp]

/-- Concrete check of `non2xx_unparseable_httpFailure`: the spec's
scenario of a 500 with a malformed JSON body. -/
theorem non2xx_unparseable_httpFailure_check :
    (toJsonModel { status := 500, statusText := "Internal Server Error", body := "not json" } =
        none ∧
      ¬(200 ≤ (500 : Nat) ∧ (500 : Nat) < 300)) ∧
    (TrackManager.getOutcome
        { status := 500, statusText := "Internal Server Error", body := "not json" } =
        .httpFailure 500 "Internal Server Error" ∧
      HTTPError.message
          { status := 500, statusText := "Internal Server Error", body := "not json" } =
        "HTTP Error Response: " ++ toString (500 : Nat) ++ " " ++ "Internal Server Error") :=
  ⟨⟨rfl, by decide⟩,
    non2xx_unparseable_httpFailure
      { status := 500, statusText := "Internal Server Error", body := "not json" }
      rfl (by decide)⟩

/-! ## Claim theorem: body serialization round trip (C9) -/

/-- C9: the executor serializes a structured (nonempty) object body to
JSON and passes an already-string (nonempty) body through unchanged;
and a structured object body, serialized and echoed back by a mock
server, deserializes to exactly the original structure. -/
theorem body_serialization_roundtrip :
    (∀ (s : String) (o : Options), s ≠ "" →
        (applyBody (BodyArg.str s) o).body = some s) ∧
    (∀ (l : List (String × JsVal)) (o : Options), l ≠ [] →
        (applyBody (BodyArg.obj l) o).body = some (stringify (.vobj l))) ∧
    (∀ l : List (String × JsVal),
        parseV (sizeV (.vobj l)) (stringify (.vobj l)).data = some (.vobj l, [])) := by
  refine ⟨?_, ?_, ?_⟩
  · intro s o hs
    have hlen : (BodyArg.str s).keysLength ≠ 0 := by
      simp only [BodyArg.keysLength]
      intro h0
      apply hs
      obtain ⟨data⟩ := s
      have hd : data = [] := List.length_eq_zero.mp (by simpa [String.length] using h0)
      rw [hd]
    unfold applyBody
    rw [if_pos hlen]
  · intro l o hl
    have hlen : (BodyArg.obj l).keysLength ≠ 0 := by
      simp only [BodyArg.keysLength]
      intro h0
      exact hl (List.length_eq_zero.mp h0)
    unfold applyBody
    rw [if_pos hlen]
  · intro l
    have h := (parse_printV_all (sizeV (.vobj l))).1 (.vobj l) [] rfl le_rfl
    rw [List.append_nil] at h
    exact h

/-- Concrete check of `body_serialization_roundtrip` on a string body
and an object body. -/
theorem body_serialization_roundtrip_check :
    (("rawdata" : String) ≠ "" ∧
      ([("name", JsVal.vstr "x")] : List (String × JsVal)) ≠ []) ∧
    ((applyBody (BodyArg.str "rawdata") defaultOptions).body = some "rawdata" ∧
      (applyBody (BodyArg.obj [("name", .vstr "x")]) defaultOptions).body =
        some (stringify (.vobj [("name", .vstr "x")])) ∧
      parseV (sizeV (JsVal.vobj [("name", .vstr "x")]))
          (stringify (.vobj [("name", .vstr "x")])).data =
        some (.vobj [("name", .vstr "x")], [])) :=
  ⟨⟨by decide, by simp⟩,
    body_serialization_roundtrip.1 "rawdata" defaultOptions (by decide),
    body_serialization_roundtrip.2.1 [("name", .vstr "x")] defaultOptions (by simp),
    body_serialization_roundtrip.2.2 [("name", .vstr "x")]⟩

end Spotifylib
